import Mathlib

/-!
Shallow embedding of `src/migrate_db.py`: a single-run transactional schema
migration for the SQLite table `p902_ozon_finance_realization`.  The script
adds an `is_return` column, changes the primary key to
`(posting_number, sku, operation_type)`, copies all rows into a shadow table,
drops the original, renames the shadow, creates four secondary indexes, and
commits; any exception inside the transaction rolls it back and the run
returns exit code 1.

The embedding models the SQLite database as an association list of named
tables plus a set of named indexes.  The transactional scope is modelled by
keeping the committed database unchanged while the steps operate on a working
state; the committed state is replaced only at the commit point, so a rollback
is literally "the committed database is what it was".  Each run also produces
a trace of events, used to state the temporal claims (what happened before or
after the commit).  Failure injection (`InjectStep`) models an exception
raised by the storage engine at one of the four structural statements of the
transaction, in addition to the natural failure modes of the copy
(missing source column, NOT NULL violation, duplicate key on the new
primary key).
-/

namespace MigrateDB

/-- SQLite storage values (dynamic typing: any column can hold any value). -/
inductive Value where
  | null
  | int (n : Int)
  | real (q : Rat)
  | text (s : String)
deriving DecidableEq

/-- A column declaration: name, declared type, NOT NULL flag, DEFAULT clause. -/
structure Column where
  name : String
  declType : String
  notNull : Bool
  dflt : Option Value
deriving DecidableEq

/-- A row, as the association of column names to values. -/
abbrev Row := List (String × Value)

/-- A table: column declarations, primary-key column list, and rows. -/
structure Table where
  columns : List Column
  primaryKey : List String
  rows : List Row
deriving DecidableEq

/-- The database: named tables plus named indexes (index name, table name). -/
structure DB where
  tables : List (String × Table)
  indexes : List (String × String)
deriving DecidableEq

/-- Association-list lookup of a column value in a row. -/
def rowGet : Row → String → Option Value
  | [], _ => none
  | (n, v) :: rest, c => if n = c then some v else rowGet rest c

/-- Association-list lookup of a table by name. -/
def tblGet : List (String × Table) → String → Option Table
  | [], _ => none
  | (n, t) :: rest, c => if n = c then some t else tblGet rest c

/-- Remove every binding of a table name. -/
def tblDel : List (String × Table) → String → List (String × Table)
  | [], _ => []
  | (n, t) :: rest, c => if n = c then tblDel rest c else (n, t) :: tblDel rest c

/-- Bind a table name to a table (replacing any previous binding). -/
def tblSet (ts : List (String × Table)) (n : String) (t : Table) :
    List (String × Table) :=
  tblDel ts n ++ [(n, t)]

/-- CREATE TABLE / INSERT target state: store a table under a name. -/
def setTable (db : DB) (n : String) (t : Table) : DB :=
  ⟨tblSet db.tables n t, db.indexes⟩

/-- DROP TABLE: removes the table and, as SQLite does, its indexes. -/
def dropTable (db : DB) (n : String) : DB :=
  ⟨tblDel db.tables n, db.indexes.filter (fun p => p.2 != n)⟩

/-- ALTER TABLE src RENAME TO dst. -/
def renameTable (db : DB) (src dst : String) : DB :=
  match tblGet db.tables src with
  | none => db
  | some t => ⟨tblSet (tblDel db.tables src) dst t, db.indexes⟩

/-- SELECT COUNT of a table, 0 when the table is absent. -/
def rowCount (db : DB) (n : String) : Nat :=
  match tblGet db.tables n with
  | none => 0
  | some t => t.rows.length

/-- The migrated table's name (`p902_ozon_finance_realization`). -/
def tableName : String := "p902_ozon_finance_realization"

/-- The shadow table's name used during the copy-and-swap. -/
def shadowName : String := "p902_ozon_finance_realization_new"

/-- The 27 column declarations of the CREATE TABLE statement of the shadow
table, in source order, with NOT NULL flags and DEFAULT clauses as written. -/
def newColumns : List Column := [
  ⟨"posting_number", "TEXT", true, none⟩,
  ⟨"sku", "TEXT", true, none⟩,
  ⟨"document_type", "TEXT", true, none⟩,
  ⟨"registrator_ref", "TEXT", true, none⟩,
  ⟨"connection_mp_ref", "TEXT", true, none⟩,
  ⟨"organization_ref", "TEXT", true, none⟩,
  ⟨"posting_ref", "TEXT", false, none⟩,
  ⟨"accrual_date", "TEXT", true, none⟩,
  ⟨"operation_date", "TEXT", false, none⟩,
  ⟨"delivery_date", "TEXT", false, none⟩,
  ⟨"delivery_schema", "TEXT", false, none⟩,
  ⟨"delivery_region", "TEXT", false, none⟩,
  ⟨"delivery_city", "TEXT", false, none⟩,
  ⟨"quantity", "REAL", true, none⟩,
  ⟨"price", "REAL", false, none⟩,
  ⟨"amount", "REAL", true, none⟩,
  ⟨"commission_amount", "REAL", false, none⟩,
  ⟨"commission_percent", "REAL", false, none⟩,
  ⟨"services_amount", "REAL", false, none⟩,
  ⟨"payout_amount", "REAL", false, none⟩,
  ⟨"operation_type", "TEXT", true, none⟩,
  ⟨"operation_type_name", "TEXT", false, none⟩,
  ⟨"is_return", "INTEGER", true, some (Value.int 0)⟩,
  ⟨"currency_code", "TEXT", false, none⟩,
  ⟨"loaded_at_utc", "TEXT", true, none⟩,
  ⟨"payload_version", "INTEGER", true, some (Value.int 1)⟩,
  ⟨"extra", "TEXT", false, none⟩]

/-- The new PRIMARY KEY declared on the shadow table. -/
def newPrimaryKey : List String := ["posting_number", "sku", "operation_type"]

/-- The 26 source column names of the SELECT of the bulk copy, in order. -/
def srcNames : List String := [
  "posting_number", "sku", "document_type", "registrator_ref",
  "connection_mp_ref", "organization_ref", "posting_ref",
  "accrual_date", "operation_date", "delivery_date",
  "delivery_schema", "delivery_region", "delivery_city",
  "quantity", "price", "amount", "commission_amount", "commission_percent",
  "services_amount", "payout_amount",
  "operation_type", "operation_type_name",
  "currency_code", "loaded_at_utc", "payload_version", "extra"]

/-- The 27 target column names of the INSERT of the bulk copy, in order:
the source columns with `is_return` (fed the literal 0) inserted. -/
def insertNames : List String := [
  "posting_number", "sku", "document_type", "registrator_ref",
  "connection_mp_ref", "organization_ref", "posting_ref",
  "accrual_date", "operation_date", "delivery_date",
  "delivery_schema", "delivery_region", "delivery_city",
  "quantity", "price", "amount", "commission_amount", "commission_percent",
  "services_amount", "payout_amount",
  "operation_type", "operation_type_name", "is_return",
  "currency_code", "loaded_at_utc", "payload_version", "extra"]

/-- The four secondary index names created after the rename, in source order. -/
def indexNames : List String := [
  "idx_p902_accrual_date", "idx_p902_posting_number",
  "idx_p902_connection_mp_ref", "idx_p902_posting_ref"]

/-- ASCII lower-casing of one character, as Python str.lower acts on the
ASCII responses the prompt compares against. -/
def lowerChar (c : Char) : Char :=
  if 65 ≤ c.toNat ∧ c.toNat ≤ 90 then Char.ofNat (c.toNat + 32) else c

/-- ASCII lower-casing of a string (the `response.lower()` of the source). -/
def lowerStr (s : String) : String := ⟨s.data.map lowerChar⟩

/-- The confirmation test of the source: `response.lower() in ['yes', 'y']`. -/
def isAffirmative (s : String) : Bool :=
  lowerStr s == "yes" || lowerStr s == "y"

/-- One row of the bulk copy: for each INSERT target column, the SELECT takes
the equally named source column, except `is_return` which receives the
literal 0; a named source column missing from the row is the
`no such column` failure of the statement. -/
def buildRow (r : Row) : List String → Option Row
  | [] => some []
  | c :: cs =>
    match (if c = "is_return" then some (Value.int 0) else rowGet r c),
        buildRow r cs with
    | some v, some rest => some ((c, v) :: rest)
    | _, _ => none

/-- The bulk copy applied to every source row, in order. -/
def buildRows : List Row → Option (List Row)
  | [] => some []
  | r :: rs =>
    match buildRow r insertNames, buildRows rs with
    | some nr, some nrs => some (nr :: nrs)
    | _, _ => none

/-- NOT NULL check of the shadow table's constraints on one copied row. -/
def notNullViolated (r : Row) : Bool :=
  newColumns.any (fun c => c.notNull && (rowGet r c.name == some Value.null))

/-- The new primary-key value of a copied row. -/
def keyOf (r : Row) : Option Value × Option Value × Option Value :=
  (rowGet r "posting_number", rowGet r "sku", rowGet r "operation_type")

/-- Whether two copied rows collide on the new primary key. -/
def hasDupKeys : List Row → Bool
  | [] => false
  | r :: rs => rs.any (fun r2 => keyOf r2 == keyOf r) || hasDupKeys rs

/-- Failure modes of the transaction: an injected storage exception, CREATE
TABLE on an existing name, and the three constraint failures of the INSERT. -/
inductive MigErr where
  | injected
  | tableExists
  | missingColumn
  | notNullViolation
  | duplicateKey
deriving DecidableEq

/-- Injection point for a storage exception: one of the four structural
statements between shadow-table creation and the rename, inclusive. -/
inductive InjectStep where
  | createShadow
  | copyStep
  | dropStep
  | renameStep
deriving DecidableEq

/-- Observable events of one run, in the order the source emits them. -/
inductive Event where
  | checkExists
  | checkSchema
  | countRows
  | prompt
  | begin
  | createShadow
  | copy
  | dropOld
  | rename
  | createIndex (name : String)
  | commit
  | rollback
  | verifyCount (expected actual : Nat)
  | warnMismatch
deriving DecidableEq

/-- The INSERT .. SELECT of step 2 of the transaction, with the constraint
checks the storage engine performs on the copied rows. -/
def copyRows (rows : List Row) : Except MigErr (List Row) :=
  match buildRows rows with
  | none => Except.error MigErr.missingColumn
  | some nrs =>
    if nrs.any notNullViolated then Except.error MigErr.notNullViolation
    else if hasDupKeys nrs then Except.error MigErr.duplicateKey
    else Except.ok nrs

/-- CREATE INDEX IF NOT EXISTS: adds the named index only when absent. -/
def createIndexIfAbsent (db : DB) (idx : String) : DB :=
  if db.indexes.any (fun p => p.1 == idx) then db
  else ⟨db.tables, db.indexes ++ [(idx, tableName)]⟩

/-- The four CREATE INDEX IF NOT EXISTS statements, in source order. -/
def createAllIndexes (db : DB) : DB :=
  createIndexIfAbsent (createIndexIfAbsent (createIndexIfAbsent
    (createIndexIfAbsent db "idx_p902_accrual_date")
    "idx_p902_posting_number") "idx_p902_connection_mp_ref")
    "idx_p902_posting_ref"

/-- The events of a transaction attempt that reaches the index-creation
statements: the four structural steps followed by the four CREATE INDEX
statements. -/
def okTxTrace : List Event :=
  [Event.createShadow, Event.copy, Event.dropOld, Event.rename] ++
    indexNames.map Event.createIndex

/-- The working database after all mutating steps of the transaction have
succeeded on the copied rows `nrs`: CREATE the empty shadow table, INSERT the
copied rows into it, DROP the original, RENAME the shadow to the original
name, and run the four CREATE INDEX IF NOT EXISTS statements. -/
def finalDB (db : DB) (nrs : List Row) : DB :=
  createAllIndexes (renameTable (dropTable
    (setTable (setTable db shadowName ⟨newColumns, newPrimaryKey, []⟩)
      shadowName ⟨newColumns, newPrimaryKey, nrs⟩)
    tableName) shadowName tableName)

/-- The body of the transaction (steps 1 to 5 of the source): shadow-table
creation, bulk copy, drop, rename, index creation.  Returns the events the
attempt emitted together with either the working database to commit or the
error that aborts the scope.  The committed database is untouched here:
rollback semantics is that the caller keeps the input database on error. -/
def txRun (db : DB) (t : Table) (failAt : Option InjectStep) :
    List Event × Except MigErr DB :=
  if failAt = some InjectStep.createShadow then
    ([Event.createShadow], Except.error MigErr.injected)
  else if (tblGet db.tables shadowName).isSome then
    ([Event.createShadow], Except.error MigErr.tableExists)
  else if failAt = some InjectStep.copyStep then
    ([Event.createShadow, Event.copy], Except.error MigErr.injected)
  else
    match copyRows t.rows with
    | Except.error e => ([Event.createShadow, Event.copy], Except.error e)
    | Except.ok nrs =>
      if failAt = some InjectStep.dropStep then
        ([Event.createShadow, Event.copy, Event.dropOld],
          Except.error MigErr.injected)
      else if failAt = some InjectStep.renameStep then
        ([Event.createShadow, Event.copy, Event.dropOld, Event.rename],
          Except.error MigErr.injected)
      else
        (okTxTrace, Except.ok (finalDB db nrs))

/-- The events the source emits before BEGIN: existence check, PRAGMA schema
check, COUNT, and the confirmation prompt when the table is non-empty. -/
def preTrace (count : Nat) : List Event :=
  [Event.checkExists, Event.checkSchema, Event.countRows] ++
    (if 0 < count then [Event.prompt] else []) ++ [Event.begin]

/-- The post-commit verification of the source (lines 152 to 159): reads the
final row count, compares it to the count captured before migration, and
reports a mismatch as a textual warning only. -/
def finalCheck (expected actual : Nat) : List Event :=
  Event.verifyCount expected actual ::
    (if actual = expected then [] else [Event.warnMismatch])

/-- Result of one run: the committed database, the process exit code, and
the event trace. -/
structure RunResult where
  db : DB
  exitCode : Nat
  trace : List Event
deriving DecidableEq

/-- PRAGMA-based schema test: does the table declare the named column. -/
def hasColumn (t : Table) (c : String) : Bool :=
  t.columns.any (fun col => col.name == c)

/-- The `main` routine of `src/migrate_db.py`, as a function of the initial
committed database, the operator's response to the confirmation prompt, and
an optional injected storage exception. -/
def main (db : DB) (response : String) (failAt : Option InjectStep) :
    RunResult :=
  match tblGet db.tables tableName with
  | none => ⟨db, 1, [Event.checkExists]⟩
  | some t =>
    if hasColumn t "is_return" then
      ⟨db, 0, [Event.checkExists, Event.checkSchema]⟩
    else
      let count := t.rows.length
      if 0 < count ∧ isAffirmative response = false then
        ⟨db, 0, [Event.checkExists, Event.checkSchema, Event.countRows,
          Event.prompt]⟩
      else
        match txRun db t failAt with
        | (tr, Except.error _) =>
          ⟨db, 1, preTrace count ++ tr ++ [Event.rollback]⟩
        | (tr, Except.ok db2) =>
          ⟨db2, 0, preTrace count ++ tr ++ [Event.commit] ++
            finalCheck count (rowCount db2 tableName)⟩

/-- The column declarations of the pre-migration table in its expected shape:
the shadow table's columns without `is_return`. -/
def oldExpectedColumns : List Column :=
  newColumns.filter (fun c => c.name != "is_return")

/-- The new column introduced by the migration, with its default. -/
def isReturnColumn : Column :=
  ⟨"is_return", "INTEGER", true, some (Value.int 0)⟩

/-- A pre-migration table in the expected shape, with no rows. -/
def goodTable : Table := ⟨oldExpectedColumns, ["posting_number", "sku"], []⟩

/-- A database holding only the expected pre-migration table, empty. -/
def goodDB : DB := ⟨[(tableName, goodTable)], []⟩

/-- A sample row populating every source column of the bulk copy. -/
def sampleRow : Row := srcNames.map (fun n => (n, Value.text "x"))

/-- A pre-migration table with one fully populated row. -/
def oneRowTable : Table :=
  ⟨oldExpectedColumns, ["posting_number", "sku"], [sampleRow]⟩

/-- A database holding the one-row pre-migration table. -/
def oneRowDB : DB := ⟨[(tableName, oneRowTable)], []⟩

/-- A pre-migration table whose two identical rows collide on the new
primary key `(posting_number, sku, operation_type)`. -/
def dupTable : Table :=
  ⟨oldExpectedColumns, ["posting_number", "sku"], [sampleRow, sampleRow]⟩

/-- A database holding the duplicate-key table. -/
def dupDB : DB := ⟨[(tableName, dupTable)], []⟩

/-- An already-migrated table: its schema contains `is_return`. -/
def migratedTable : Table := ⟨newColumns, newPrimaryKey, []⟩

/-- A database holding the already-migrated table. -/
def migratedDB : DB := ⟨[(tableName, migratedTable)], []⟩

/-- A database with no tables at all. -/
def emptyDB : DB := ⟨[], []⟩

/-- A column not mentioned anywhere in the migration's statements. -/
def extraColumn : Column := ⟨"legacy_note", "TEXT", false, none⟩

/-- A row of the extended table: every source column plus a value in the
extra column. -/
def extendedRow : Row := sampleRow ++ [("legacy_note", Value.text "v")]

/-- A pre-migration table carrying an extra column and a primary key not
contained in the new one. -/
def extendedTable : Table :=
  ⟨oldExpectedColumns ++ [extraColumn], ["accrual_date"], [extendedRow]⟩

/-- A database holding the extended table. -/
def extendedDB : DB := ⟨[(tableName, extendedTable)], []⟩

/-! Helper lemmas about the association-list operations of the store. -/

theorem tblGet_append (a b : List (String × Table)) (c : String) :
    tblGet (a ++ b) c =
      (match tblGet a c with
       | some t => some t
       | none => tblGet b c) := by
  induction a with
  | nil => rfl
  | cons p rest ih =>
    obtain ⟨n, t⟩ := p
    by_cases h : n = c <;> simp [tblGet, h, ih]

theorem tblGet_del_self (ts : List (String × Table)) (n : String) :
    tblGet (tblDel ts n) n = none := by
  induction ts with
  | nil => rfl
  | cons p rest ih =>
    obtain ⟨m, t⟩ := p
    by_cases h : m = n <;> simp [tblDel, tblGet, h, ih]

theorem tblGet_del_other (ts : List (String × Table)) (n m : String)
    (h : n ≠ m) : tblGet (tblDel ts n) m = tblGet ts m := by
  induction ts with
  | nil => rfl
  | cons p rest ih =>
    obtain ⟨k, t⟩ := p
    simp only [tblDel, tblGet]
    by_cases hk : k = n
    · subst hk
      rw [if_pos rfl, ih, if_neg h]
    · rw [if_neg hk]
      simp only [tblGet]
      rw [ih]

theorem tblGet_set_self (ts : List (String × Table)) (n : String) (t : Table) :
    tblGet (tblSet ts n t) n = some t := by
  unfold tblSet
  rw [tblGet_append, tblGet_del_self]
  simp [tblGet]

theorem createIndexIfAbsent_tables (d : DB) (n : String) :
    (createIndexIfAbsent d n).tables = d.tables := by
  unfold createIndexIfAbsent
  split <;> rfl

theorem createAllIndexes_tables (d : DB) :
    (createAllIndexes d).tables = d.tables := by
  unfold createAllIndexes
  rw [createIndexIfAbsent_tables, createIndexIfAbsent_tables,
    createIndexIfAbsent_tables, createIndexIfAbsent_tables]

theorem tableName_ne_shadowName : tableName ≠ shadowName := by decide

/-- After the swap, the stable table name resolves to the shadow table's
content. -/
theorem tblGet_finalDB (db : DB) (nrs : List Row) :
    tblGet (finalDB db nrs).tables tableName =
      some ⟨newColumns, newPrimaryKey, nrs⟩ := by
  unfold finalDB
  rw [createAllIndexes_tables]
  have hsh : tblGet (dropTable
      (setTable (setTable db shadowName ⟨newColumns, newPrimaryKey, []⟩)
        shadowName ⟨newColumns, newPrimaryKey, nrs⟩) tableName).tables
      shadowName = some ⟨newColumns, newPrimaryKey, nrs⟩ := by
    unfold dropTable
    rw [tblGet_del_other _ _ _ tableName_ne_shadowName]
    exact tblGet_set_self _ _ _
  unfold renameTable
  rw [hsh]
  exact tblGet_set_self _ _ _

theorem rowCount_finalDB (db : DB) (nrs : List Row) :
    rowCount (finalDB db nrs) tableName = nrs.length := by
  unfold rowCount
  rw [tblGet_finalDB]

/-! Inversion lemmas for the transaction body and the run. -/

theorem txRun_ok (db : DB) (t : Table) (failAt : Option InjectStep)
    (tr : List Event) (db2 : DB)
    (h : txRun db t failAt = (tr, Except.ok db2)) :
    failAt = none ∧ tblGet db.tables shadowName = none ∧
      ∃ nrs, copyRows t.rows = Except.ok nrs ∧ tr = okTxTrace ∧
        db2 = finalDB db nrs := by
  unfold txRun at h
  split at h
  · simp [Prod.ext_iff] at h
  next h1 =>
    split at h
    · simp [Prod.ext_iff] at h
    next h2 =>
      split at h
      · simp [Prod.ext_iff] at h
      next h3 =>
        split at h
        next e heq => simp [Prod.ext_iff] at h
        next nrs heq =>
          split at h
          · simp [Prod.ext_iff] at h
          next h4 =>
            split at h
            · simp [Prod.ext_iff] at h
            next h5 =>
              obtain ⟨htr, hs⟩ := Prod.mk.injEq .. ▸ h
              injection hs with hdb
              refine ⟨?_, ?_, nrs, heq, htr.symm, hdb.symm⟩
              · cases failAt with
                | none => rfl
                | some s => cases s <;> simp_all
              · cases ho : tblGet db.tables shadowName with
                | none => rfl
                | some x => rw [ho] at h2; simp at h2

theorem txRun_error (db : DB) (t : Table) (failAt : Option InjectStep)
    (tr : List Event) (e : MigErr)
    (h : txRun db t failAt = (tr, Except.error e)) :
    tr = [Event.createShadow] ∨
    tr = [Event.createShadow, Event.copy] ∨
    tr = [Event.createShadow, Event.copy, Event.dropOld] ∨
    tr = [Event.createShadow, Event.copy, Event.dropOld, Event.rename] := by
  unfold txRun at h
  split at h
  · exact Or.inl (congrArg Prod.fst h).symm
  next h1 =>
    split at h
    · exact Or.inl (congrArg Prod.fst h).symm
    next h2 =>
      split at h
      · exact Or.inr (Or.inl (congrArg Prod.fst h).symm)
      next h3 =>
        split at h
        next e0 heq => exact Or.inr (Or.inl (congrArg Prod.fst h).symm)
        next nrs heq =>
          split at h
          · exact Or.inr (Or.inr (Or.inl (congrArg Prod.fst h).symm))
          next h4 =>
            split at h
            · exact Or.inr (Or.inr (Or.inr (congrArg Prod.fst h).symm))
            next h5 => simp [Prod.ext_iff] at h

theorem preTrace_mem (n : Nat) (e : Event) (h : e ∈ preTrace n) :
    e = Event.checkExists ∨ e = Event.checkSchema ∨ e = Event.countRows ∨
      e = Event.prompt ∨ e = Event.begin := by
  by_cases h0 : 0 < n <;> simp [preTrace, h0] at h <;> tauto

theorem okTxTrace_mem (e : Event) (h : e ∈ okTxTrace) :
    e = Event.createShadow ∨ e = Event.copy ∨ e = Event.dropOld ∨
      e = Event.rename ∨ ∃ s, e = Event.createIndex s := by
  simp [okTxTrace, indexNames] at h
  rcases h with h | h | h | h | h | h | h | h
  all_goals first
    | exact Or.inl h
    | exact Or.inr (Or.inl h)
    | exact Or.inr (Or.inr (Or.inl h))
    | exact Or.inr (Or.inr (Or.inr (Or.inl h)))
    | exact Or.inr (Or.inr (Or.inr (Or.inr ⟨_, h⟩)))

theorem finalCheck_mem (a b : Nat) (e : Event) (h : e ∈ finalCheck a b) :
    e = Event.verifyCount a b ∨ e = Event.warnMismatch := by
  unfold finalCheck at h
  rcases List.mem_cons.mp h with h1 | h1
  · exact Or.inl h1
  · right
    by_cases hab : b = a
    · rw [if_pos hab] at h1
      simp at h1
    · rw [if_neg hab] at h1
      simpa using h1

/-- Exhaustive case analysis of one run: missing table, already migrated,
operator declined, transaction rolled back, or transaction committed. -/
theorem main_cases (db : DB) (resp : String) (failAt : Option InjectStep) :
    (tblGet db.tables tableName = none ∧
      main db resp failAt = ⟨db, 1, [Event.checkExists]⟩) ∨
    (∃ t, tblGet db.tables tableName = some t ∧
      hasColumn t "is_return" = true ∧
      main db resp failAt = ⟨db, 0, [Event.checkExists, Event.checkSchema]⟩) ∨
    (∃ t, tblGet db.tables tableName = some t ∧
      hasColumn t "is_return" = false ∧ 0 < t.rows.length ∧
      isAffirmative resp = false ∧
      main db resp failAt = ⟨db, 0, [Event.checkExists, Event.checkSchema,
        Event.countRows, Event.prompt]⟩) ∨
    (∃ t tr e, tblGet db.tables tableName = some t ∧
      hasColumn t "is_return" = false ∧
      txRun db t failAt = (tr, Except.error e) ∧
      main db resp failAt =
        ⟨db, 1, preTrace t.rows.length ++ tr ++ [Event.rollback]⟩) ∨
    (∃ t nrs, tblGet db.tables tableName = some t ∧
      hasColumn t "is_return" = false ∧ failAt = none ∧
      tblGet db.tables shadowName = none ∧
      copyRows t.rows = Except.ok nrs ∧
      main db resp failAt = ⟨finalDB db nrs, 0,
        preTrace t.rows.length ++ okTxTrace ++ [Event.commit] ++
          finalCheck t.rows.length nrs.length⟩) := by
  rcases htbl : tblGet db.tables tableName with _ | t
  · exact Or.inl ⟨rfl, by simp [main, htbl]⟩
  · by_cases hcol : hasColumn t "is_return" = true
    · exact Or.inr (Or.inl ⟨t, rfl, hcol, by simp [main, htbl, hcol]⟩)
    · have hcolF : hasColumn t "is_return" = false :=
        Bool.eq_false_iff.mpr hcol
      by_cases hdec : 0 < t.rows.length ∧ isAffirmative resp = false
      · exact Or.inr (Or.inr (Or.inl ⟨t, rfl, hcolF, hdec.1, hdec.2,
          by simp [main, htbl, hcolF, hdec]⟩))
      · rcases htx : txRun db t failAt with ⟨tr, res⟩
        rcases res with e | db2
        · exact Or.inr (Or.inr (Or.inr (Or.inl ⟨t, tr, e, rfl, hcolF,
            htx, by simp [main, htbl, hcolF, hdec, htx]⟩)))
        · obtain ⟨hfail, hsh, nrs, hcopy, htr, hdb⟩ :=
            txRun_ok db t failAt tr db2 htx
          refine Or.inr (Or.inr (Or.inr (Or.inr ⟨t, nrs, rfl, hcolF, hfail,
            hsh, hcopy, ?_⟩)))
          have hrc : rowCount db2 tableName = nrs.length := by
            rw [hdb, rowCount_finalDB]
          simp [main, htbl, hcolF, hdec, htx, hdb, htr, hrc]
          rw [rowCount_finalDB]

/-- A run whose trace contains the commit event took the full success path;
this names the source table, the copied rows, and the exact result. -/
theorem main_commit (db : DB) (resp : String) (failAt : Option InjectStep)
    (h : Event.commit ∈ (main db resp failAt).trace) :
    ∃ t nrs, tblGet db.tables tableName = some t ∧
      hasColumn t "is_return" = false ∧ failAt = none ∧
      tblGet db.tables shadowName = none ∧
      copyRows t.rows = Except.ok nrs ∧
      main db resp failAt = ⟨finalDB db nrs, 0,
        preTrace t.rows.length ++ okTxTrace ++ [Event.commit] ++
          finalCheck t.rows.length nrs.length⟩ := by
  rcases main_cases db resp failAt with ⟨_, heq⟩ | ⟨t, _, _, heq⟩ |
    ⟨t, _, _, _, _, heq⟩ | ⟨t, tr, e, ht, hc, htx, heq⟩ | hok
  · rw [heq] at h
    simp at h
  · rw [heq] at h
    simp at h
  · rw [heq] at h
    simp at h
  · rw [heq] at h
    simp only [List.mem_append, List.mem_singleton] at h
    rcases h with (h | h) | h
    · rcases preTrace_mem _ _ h with h | h | h | h | h <;> cases h
    · rcases txRun_error db t failAt tr e htx with rfl | rfl | rfl | rfl <;>
        simp at h
    · cases h
  · exact hok

/-- A run whose trace contains a count-verification event took the full
success path. -/
theorem main_verify (db : DB) (resp : String) (failAt : Option InjectStep)
    (a b : Nat) (h : Event.verifyCount a b ∈ (main db resp failAt).trace) :
    ∃ t nrs, tblGet db.tables tableName = some t ∧
      hasColumn t "is_return" = false ∧ failAt = none ∧
      tblGet db.tables shadowName = none ∧
      copyRows t.rows = Except.ok nrs ∧
      main db resp failAt = ⟨finalDB db nrs, 0,
        preTrace t.rows.length ++ okTxTrace ++ [Event.commit] ++
          finalCheck t.rows.length nrs.length⟩ := by
  rcases main_cases db resp failAt with ⟨_, heq⟩ | ⟨t, _, _, heq⟩ |
    ⟨t, _, _, _, _, heq⟩ | ⟨t, tr, e, ht, hc, htx, heq⟩ | hok
  · rw [heq] at h
    simp at h
  · rw [heq] at h
    simp at h
  · rw [heq] at h
    simp at h
  · rw [heq] at h
    simp only [List.mem_append, List.mem_singleton] at h
    rcases h with (h | h) | h
    · rcases preTrace_mem _ _ h with h | h | h | h | h <;> cases h
    · rcases txRun_error db t failAt tr e htx with rfl | rfl | rfl | rfl <;>
        simp at h
    · cases h
  · exact hok

/-! Lemmas about the bulk copy. -/

/-- The value of each copied column: `is_return` receives the literal 0,
every other selected column is read from the source row unchanged. -/
theorem buildRow_get (r : Row) (cs : List String) (nr : Row)
    (h : buildRow r cs = some nr) (c : String) (hc : c ∈ cs) :
    rowGet nr c =
      (if c = "is_return" then some (Value.int 0) else rowGet r c) := by
  induction cs generalizing nr with
  | nil => cases hc
  | cons c0 cs ih =>
    unfold buildRow at h
    rcases hv : (if c0 = "is_return" then some (Value.int 0)
        else rowGet r c0) with _ | v <;> rw [hv] at h
    · cases h
    · rcases hrest : buildRow r cs with _ | rest <;> rw [hrest] at h
      · cases h
      · cases h
        rcases List.mem_cons.mp hc with rfl | hc2
        · simp only [rowGet, if_pos, if_true]
          exact hv.symm
        · by_cases hcc : c0 = c
          · subst hcc
            simp only [rowGet, if_pos, if_true]
            exact hv.symm
          · simp only [rowGet]
            rw [if_neg hcc]
            exact ih rest hrest hc2

/-- The bulk copy pairs up the source rows and the copied rows one to one. -/
theorem buildRows_forall (rows : List Row) (nrs : List Row)
    (h : buildRows rows = some nrs) :
    List.Forall₂ (fun r nr => buildRow r insertNames = some nr) rows nrs := by
  induction rows generalizing nrs with
  | nil =>
    cases h
    exact List.Forall₂.nil
  | cons r rs ih =>
    unfold buildRows at h
    rcases h1 : buildRow r insertNames with _ | nr <;> rw [h1] at h
    · cases h
    · rcases h2 : buildRows rs with _ | nrs0 <;> rw [h2] at h
      · cases h
      · cases h
        exact List.Forall₂.cons h1 (ih nrs0 h2)

/-- A copy that the constraints accept is the plain per-row build. -/
theorem copyRows_ok_inv (rows : List Row) (nrs : List Row)
    (h : copyRows rows = Except.ok nrs) : buildRows rows = some nrs := by
  unfold copyRows at h
  rcases hb : buildRows rows with _ | nrs0 <;> rw [hb] at h
  · cases h
  · by_cases h1 : nrs0.any notNullViolated = true
    · simp [h1] at h
    · by_cases h2 : hasDupKeys nrs0 = true
      · simp [h1, h2] at h
      · simp [h1, h2] at h
        rw [h]

/-- Every column of the SELECT list occurs in the INSERT list and is not the
new column. -/
theorem srcNames_spec :
    ∀ c ∈ srcNames, c ∈ insertNames ∧ ¬c = "is_return" := by
  decide

theorem isReturn_mem_insertNames : "is_return" ∈ insertNames := by
  decide

/-! Lemmas about index creation. -/

theorem createIndexIfAbsent_mem (d : DB) (n : String) :
    ∃ tn, (n, tn) ∈ (createIndexIfAbsent d n).indexes := by
  unfold createIndexIfAbsent
  split
  next h =>
    rcases List.any_eq_true.mp h with ⟨p, hp, hpn⟩
    have hpn2 : p.1 = n := by simpa using hpn
    exact ⟨p.2, by rw [← hpn2]; simpa using hp⟩
  next h => exact ⟨tableName, by simp⟩

theorem createIndexIfAbsent_mono (d : DB) (n : String) (p : String × String)
    (h : p ∈ d.indexes) : p ∈ (createIndexIfAbsent d n).indexes := by
  unfold createIndexIfAbsent
  split
  · exact h
  · simp [h]

/-- After the four CREATE INDEX IF NOT EXISTS statements, each of the four
index names is present. -/
theorem createAllIndexes_mem (d : DB) (n : String) (hn : n ∈ indexNames) :
    ∃ tn, (n, tn) ∈ (createAllIndexes d).indexes := by
  unfold createAllIndexes
  simp only [indexNames, List.mem_cons, List.not_mem_nil, or_false] at hn
  rcases hn with rfl | rfl | rfl | rfl
  · obtain ⟨tn, h⟩ := createIndexIfAbsent_mem d "idx_p902_accrual_date"
    exact ⟨tn, createIndexIfAbsent_mono _ _ _ (createIndexIfAbsent_mono _ _ _
      (createIndexIfAbsent_mono _ _ _ h))⟩
  · obtain ⟨tn, h⟩ := createIndexIfAbsent_mem
      (createIndexIfAbsent d "idx_p902_accrual_date")
      "idx_p902_posting_number"
    exact ⟨tn, createIndexIfAbsent_mono _ _ _
      (createIndexIfAbsent_mono _ _ _ h)⟩
  · obtain ⟨tn, h⟩ := createIndexIfAbsent_mem
      (createIndexIfAbsent (createIndexIfAbsent d "idx_p902_accrual_date")
        "idx_p902_posting_number") "idx_p902_connection_mp_ref"
    exact ⟨tn, createIndexIfAbsent_mono _ _ _ h⟩
  · obtain ⟨tn, h⟩ := createIndexIfAbsent_mem
      (createIndexIfAbsent (createIndexIfAbsent
        (createIndexIfAbsent d "idx_p902_accrual_date")
        "idx_p902_posting_number") "idx_p902_connection_mp_ref")
      "idx_p902_posting_ref"
    exact ⟨tn, h⟩

/-- Rebuilding an index that is already present changes nothing. -/
theorem createIndexIfAbsent_idem (d : DB) (n : String)
    (h : d.indexes.any (fun p => p.1 == n) = true) :
    createIndexIfAbsent d n = d := by
  unfold createIndexIfAbsent
  rw [if_pos h]

/-! The claims. -/

/-- C1 (atomicity under failure): in every run in which a step of the
transaction raises — an injected storage exception at any structural step
from shadow-table creation to the rename, or a constraint violation such as
a duplicate key on the new primary key during the bulk copy, all of which
put the rollback event in the trace — the committed database is exactly the
initial one, the table under its original name is unchanged (same schema and
rows), no shadow table remains (given none existed before the run), and the
run returns exit code 1. -/
theorem c1_atomicity_under_failure (db : DB) (resp : String)
    (failAt : Option InjectStep)
    (hsh : tblGet db.tables shadowName = none)
    (hroll : Event.rollback ∈ (main db resp failAt).trace) :
    (main db resp failAt).db = db ∧
    tblGet (main db resp failAt).db.tables tableName =
      tblGet db.tables tableName ∧
    tblGet (main db resp failAt).db.tables shadowName = none ∧
    (main db resp failAt).exitCode = 1 := by
  rcases main_cases db resp failAt with ⟨_, heq⟩ | ⟨t, _, _, heq⟩ |
    ⟨t, _, _, _, _, heq⟩ | ⟨t, tr, e, ht, hc, htx, heq⟩ |
    ⟨t, nrs, ht, hc, _, _, hcopy, heq⟩
  · rw [heq] at hroll
    simp at hroll
  · rw [heq] at hroll
    simp at hroll
  · rw [heq] at hroll
    simp at hroll
  · rw [heq]
    exact ⟨rfl, rfl, hsh, rfl⟩
  · rw [heq] at hroll
    simp only [List.mem_append, List.mem_singleton] at hroll
    rcases hroll with ((h | h) | h) | h
    · rcases preTrace_mem _ _ h with h | h | h | h | h <;> cases h
    · rcases okTxTrace_mem _ h with h | h | h | h | ⟨s, h⟩ <;> cases h
    · cases h
    · rcases finalCheck_mem _ _ _ h with h | h <;> cases h

/-- C1 witness: a run on a table whose two rows collide on the new primary
key rolls back, leaves the database untouched, and exits with code 1. -/
theorem c1_atomicity_under_failure_witness :
    tblGet dupDB.tables shadowName = none ∧
    Event.rollback ∈ (main dupDB "yes" none).trace ∧
    ((main dupDB "yes" none).db = dupDB ∧
      tblGet (main dupDB "yes" none).db.tables tableName =
        tblGet dupDB.tables tableName ∧
      tblGet (main dupDB "yes" none).db.tables shadowName = none ∧
      (main dupDB "yes" none).exitCode = 1) :=
  ⟨by decide, by decide,
    c1_atomicity_under_failure dupDB "yes" none (by decide) (by decide)⟩

/-- C3 (idempotence): when the table already has the `is_return` column the
run is a pure no-op — the committed database is returned unchanged, the
trace holds only the two read-only catalog queries (no transaction, no DDL
or DML), and the exit code is 0; a second invocation behaves identically. -/
theorem c3_idempotent_noop (db : DB) (resp resp2 : String)
    (failAt failAt2 : Option InjectStep) (t : Table)
    (ht : tblGet db.tables tableName = some t)
    (hcol : hasColumn t "is_return" = true) :
    main db resp failAt = ⟨db, 0, [Event.checkExists, Event.checkSchema]⟩ ∧
    main (main db resp failAt).db resp2 failAt2 =
      ⟨db, 0, [Event.checkExists, Event.checkSchema]⟩ := by
  have h1 : main db resp failAt =
      ⟨db, 0, [Event.checkExists, Event.checkSchema]⟩ := by
    simp [main, ht, hcol]
  refine ⟨h1, ?_⟩
  rw [h1]
  simp [main, ht, hcol]

/-- C3 witness: the already-migrated database is untouched by two
consecutive runs, both reporting success. -/
theorem c3_idempotent_noop_witness :
    tblGet migratedDB.tables tableName = some migratedTable ∧
    hasColumn migratedTable "is_return" = true ∧
    (main migratedDB "x" none =
      ⟨migratedDB, 0, [Event.checkExists, Event.checkSchema]⟩ ∧
     main (main migratedDB "x" none).db "y" none =
      ⟨migratedDB, 0, [Event.checkExists, Event.checkSchema]⟩) :=
  ⟨by decide, by decide,
    c3_idempotent_noop migratedDB "x" "y" none none migratedTable
      (by decide) (by decide)⟩

/-- C5 (operator decline): on a non-empty, not-yet-migrated table, any
non-affirmative response (under ASCII lower-casing, anything other than
yes or y, including the empty response) terminates the run before any
mutation: the database is unchanged, no transaction is opened, and the exit
code is 0. -/
theorem c5_operator_decline (db : DB) (resp : String)
    (failAt : Option InjectStep) (t : Table)
    (ht : tblGet db.tables tableName = some t)
    (hcol : hasColumn t "is_return" = false)
    (hn : 0 < t.rows.length)
    (hresp : isAffirmative resp = false) :
    main db resp failAt =
      ⟨db, 0, [Event.checkExists, Event.checkSchema, Event.countRows,
        Event.prompt]⟩ := by
  simp [main, ht, hcol, hn, hresp]

/-- C5 witness: responding "no" to the prompt on a one-row table leaves the
database untouched and exits with code 0. -/
theorem c5_operator_decline_witness :
    tblGet oneRowDB.tables tableName = some oneRowTable ∧
    hasColumn oneRowTable "is_return" = false ∧
    0 < oneRowTable.rows.length ∧
    isAffirmative "no" = false ∧
    main oneRowDB "no" none =
      ⟨oneRowDB, 0, [Event.checkExists, Event.checkSchema, Event.countRows,
        Event.prompt]⟩ :=
  ⟨by decide, by decide, by decide, by decide,
    c5_operator_decline oneRowDB "no" none oneRowTable
      (by decide) (by decide) (by decide) (by decide)⟩

/-- C6 (missing-table rejection): a run against a database in which the
table name does not resolve fails immediately with exit code 1, opens no
transaction, and performs zero storage mutation. -/
theorem c6_missing_table (db : DB) (resp : String) (failAt : Option InjectStep)
    (h : tblGet db.tables tableName = none) :
    main db resp failAt = ⟨db, 1, [Event.checkExists]⟩ := by
  simp [main, h]

/-- C6 witness: the empty database triggers the missing-table failure. -/
theorem c6_missing_table_witness :
    tblGet emptyDB.tables tableName = none ∧
    main emptyDB "" none = ⟨emptyDB, 1, [Event.checkExists]⟩ :=
  ⟨by decide, c6_missing_table emptyDB "" none (by decide)⟩

/-- C2 (temporal position of the count verification): contrary to the
design requirement, in every run that evaluates the row-count comparison at
all, the trace splits around the commit event with the drop of the original
table strictly before the commit and the comparison strictly after it — the
comparison therefore never runs before the drop and can never veto the
commit. -/
theorem c2_verify_after_commit (db : DB) (resp : String)
    (failAt : Option InjectStep) (a b : Nat)
    (h : Event.verifyCount a b ∈ (main db resp failAt).trace) :
    ∃ l1 l2, (main db resp failAt).trace = l1 ++ Event.commit :: l2 ∧
      Event.dropOld ∈ l1 ∧ Event.verifyCount a b ∈ l2 ∧
      Event.commit ∉ l1 := by
  obtain ⟨t, nrs, ht, hc, hfail, hsh, hcopy, heq⟩ :=
    main_verify db resp failAt a b h
  refine ⟨preTrace t.rows.length ++ okTxTrace,
    finalCheck t.rows.length nrs.length, ?_, ?_, ?_, ?_⟩
  · rw [heq]
    simp [List.append_assoc]
  · exact List.mem_append_right _ (by decide)
  · rw [heq] at h
    simp only [List.mem_append, List.mem_singleton] at h
    rcases h with ((h | h) | h) | h
    · rcases preTrace_mem _ _ h with h | h | h | h | h <;> cases h
    · rcases okTxTrace_mem _ h with h | h | h | h | ⟨s, h⟩ <;> cases h
    · cases h
    · exact h
  · intro hmem
    rcases List.mem_append.mp hmem with h2 | h2
    · rcases preTrace_mem _ _ h2 with h2 | h2 | h2 | h2 | h2 <;> cases h2
    · rcases okTxTrace_mem _ h2 with h2 | h2 | h2 | h2 | ⟨s, h2⟩ <;> cases h2

/-- C2 witness: the successful run on the empty expected table evaluates
the comparison, and the split exists: drop before commit, comparison after
it. -/
theorem c2_verify_after_commit_witness :
    Event.verifyCount 0 0 ∈ (main goodDB "" none).trace ∧
    (∃ l1 l2, (main goodDB "" none).trace = l1 ++ Event.commit :: l2 ∧
      Event.dropOld ∈ l1 ∧ Event.verifyCount 0 0 ∈ l2 ∧
      Event.commit ∉ l1) :=
  ⟨by decide, c2_verify_after_commit goodDB "" none 0 0 (by decide)⟩

/-- C4 counterexample: the claim as stated fails for a source table with an
extra column.  The run on `extendedDB` succeeds (exit 0, commit in trace),
the source row holds the value v in the pre-existing column `legacy_note`,
yet in the migrated table that value is gone — the copy preserves only the
26 columns named in its SELECT list. -/
theorem c4_counterexample :
    (main extendedDB "y" none).exitCode = 0 ∧
    Event.commit ∈ (main extendedDB "y" none).trace ∧
    rowGet extendedRow "legacy_note" = some (Value.text "v") ∧
    Option.map (fun t => t.rows.map (fun r => rowGet r "legacy_note"))
      (tblGet (main extendedDB "y" none).db.tables tableName) =
      some [none] := by
  decide

/-- C4 as amended (row-count preservation with defaults): every committed
run yields a table with exactly as many rows as the source, where, for each
row, the value of each of the 26 plan-mapped source columns is copied
unchanged and the new column `is_return` equals its configured default 0. -/
theorem c4_row_preservation (db : DB) (resp : String)
    (failAt : Option InjectStep) (t : Table)
    (ht : tblGet db.tables tableName = some t)
    (hcommit : Event.commit ∈ (main db resp failAt).trace) :
    ∃ t1, tblGet (main db resp failAt).db.tables tableName = some t1 ∧
      t1.rows.length = t.rows.length ∧
      List.Forall₂ (fun orig nr =>
        (∀ c ∈ srcNames, rowGet nr c = rowGet orig c) ∧
        rowGet nr "is_return" = some (Value.int 0)) t.rows t1.rows := by
  obtain ⟨t0, nrs, ht0, hc, hfail, hsh, hcopy, heq⟩ :=
    main_commit db resp failAt hcommit
  rw [ht] at ht0
  injection ht0 with htt
  subst htt
  have hf : List.Forall₂ (fun r nr => buildRow r insertNames = some nr)
      t.rows nrs := buildRows_forall _ _ (copyRows_ok_inv _ _ hcopy)
  refine ⟨⟨newColumns, newPrimaryKey, nrs⟩, ?_, ?_, ?_⟩
  · rw [heq]
    exact tblGet_finalDB db nrs
  · exact hf.length_eq.symm
  · refine List.Forall₂.imp ?_ hf
    intro r nr hb
    refine ⟨fun c hc2 => ?_, ?_⟩
    · obtain ⟨hmem, hne⟩ := srcNames_spec c hc2
      rw [buildRow_get r insertNames nr hb c hmem, if_neg hne]
    · rw [buildRow_get r insertNames nr hb "is_return"
        isReturn_mem_insertNames, if_pos rfl]

/-- C4 witness: the confirmed run on the one-row table preserves the row
and fills the default. -/
theorem c4_row_preservation_witness :
    tblGet oneRowDB.tables tableName = some oneRowTable ∧
    Event.commit ∈ (main oneRowDB "y" none).trace ∧
    (∃ t1, tblGet (main oneRowDB "y" none).db.tables tableName = some t1 ∧
      t1.rows.length = oneRowTable.rows.length ∧
      List.Forall₂ (fun orig nr =>
        (∀ c ∈ srcNames, rowGet nr c = rowGet orig c) ∧
        rowGet nr "is_return" = some (Value.int 0))
        oneRowTable.rows t1.rows) :=
  ⟨by decide, by decide,
    c4_row_preservation oneRowDB "y" none oneRowTable (by decide) (by decide)⟩

/-- C7 counterexample: the claim as stated fails.  A run from a source
table with an extra column and primary key (accrual_date) still succeeds,
but the resulting schema is the fixed 27-column one — it is not the source
schema extended by `is_return` (the extra column is silently dropped), and
the new primary key does not contain the old one. -/
theorem c7_counterexample :
    (main extendedDB "y" none).exitCode = 0 ∧
    Event.commit ∈ (main extendedDB "y" none).trace ∧
    extraColumn ∈ extendedTable.columns ∧
    Option.map Table.columns
      (tblGet (main extendedDB "y" none).db.tables tableName) =
      some newColumns ∧
    extraColumn ∉ newColumns ∧
    "accrual_date" ∈ extendedTable.primaryKey ∧
    Option.map Table.primaryKey
      (tblGet (main extendedDB "y" none).db.tables tableName) =
      some newPrimaryKey ∧
    "accrual_date" ∉ newPrimaryKey := by
  decide

/-- C7 as amended (persisted-state postcondition): for every committed run
whose source table is in the expected pre-migration shape (exactly the 26
expected columns, primary key within (posting_number, sku)), the stable
name afterwards resolves to the source schema extended by exactly the
`is_return` column with its default, and the new primary key
(posting_number, sku, operation_type) contains the old key plus the new
key column `operation_type`. -/
theorem c7_schema_postcondition (db : DB) (resp : String)
    (failAt : Option InjectStep) (t : Table)
    (ht : tblGet db.tables tableName = some t)
    (hcols : t.columns = oldExpectedColumns)
    (hpk : ∀ k ∈ t.primaryKey, k = "posting_number" ∨ k = "sku")
    (hcommit : Event.commit ∈ (main db resp failAt).trace) :
    ∃ t1, tblGet (main db resp failAt).db.tables tableName = some t1 ∧
      (∀ c ∈ t.columns, c ∈ t1.columns) ∧
      (∀ c ∈ t1.columns, c ∈ t.columns ∨ c = isReturnColumn) ∧
      isReturnColumn ∈ t1.columns ∧
      t1.primaryKey = newPrimaryKey ∧
      (∀ k ∈ t.primaryKey, k ∈ t1.primaryKey) ∧
      "operation_type" ∈ t1.primaryKey := by
  obtain ⟨t0, nrs, ht0, hc, hfail, hsh, hcopy, heq⟩ :=
    main_commit db resp failAt hcommit
  rw [ht] at ht0
  injection ht0 with htt
  subst htt
  refine ⟨⟨newColumns, newPrimaryKey, nrs⟩, ?_, ?_, ?_, ?_, rfl, ?_, ?_⟩
  · rw [heq]
    exact tblGet_finalDB db nrs
  · intro c hc2
    rw [hcols] at hc2
    exact (by decide : ∀ c ∈ oldExpectedColumns, c ∈ newColumns) c hc2
  · intro c hc2
    rw [hcols]
    exact (by decide :
      ∀ c ∈ newColumns, c ∈ oldExpectedColumns ∨ c = isReturnColumn) c hc2
  · show isReturnColumn ∈ newColumns
    decide
  · intro k hk
    rcases hpk k hk with rfl | rfl
    · show "posting_number" ∈ newPrimaryKey
      decide
    · show "sku" ∈ newPrimaryKey
      decide
  · show "operation_type" ∈ newPrimaryKey
    decide

/-- C7 witness: a committed run from the expected pre-migration shape. -/
theorem c7_schema_postcondition_witness :
    tblGet goodDB.tables tableName = some goodTable ∧
    goodTable.columns = oldExpectedColumns ∧
    (∀ k ∈ goodTable.primaryKey, k = "posting_number" ∨ k = "sku") ∧
    Event.commit ∈ (main goodDB "" none).trace ∧
    (∃ t1, tblGet (main goodDB "" none).db.tables tableName = some t1 ∧
      (∀ c ∈ goodTable.columns, c ∈ t1.columns) ∧
      (∀ c ∈ t1.columns, c ∈ goodTable.columns ∨ c = isReturnColumn) ∧
      isReturnColumn ∈ t1.columns ∧
      t1.primaryKey = newPrimaryKey ∧
      (∀ k ∈ goodTable.primaryKey, k ∈ t1.primaryKey) ∧
      "operation_type" ∈ t1.primaryKey) :=
  ⟨by decide, by decide, by decide, by decide,
    c7_schema_postcondition goodDB "" none goodTable
      (by decide) (by decide) (by decide) (by decide)⟩

/-- C8 counterexample: the claim as stated fails.  In a successful run the
index-creation events occur strictly before the commit event — inside the
transactional scope, not after its commit. -/
theorem c8_counterexample :
    (main goodDB "" none).exitCode = 0 ∧
    Event.commit ∈ (main goodDB "" none).trace ∧
    Event.createIndex "idx_p902_accrual_date" ∈
      ((main goodDB "" none).trace.takeWhile
        (fun e => e != Event.commit)) := by
  decide

/-- C8 as amended (index rebuild ordering): in every committed run the
secondary indexes are created after the rename of the shadow table but
still inside the transactional scope, before its commit: the trace is some
prefix containing BEGIN, then the rename, then the four index creations,
then the commit. -/
theorem c8_indexes_before_commit (db : DB) (resp : String)
    (failAt : Option InjectStep)
    (hcommit : Event.commit ∈ (main db resp failAt).trace) :
    ∃ l1 l2, (main db resp failAt).trace =
      l1 ++ [Event.rename] ++ indexNames.map Event.createIndex ++
        [Event.commit] ++ l2 ∧ Event.begin ∈ l1 := by
  obtain ⟨t, nrs, ht, hc, hfail, hsh, hcopy, heq⟩ :=
    main_commit db resp failAt hcommit
  refine ⟨preTrace t.rows.length ++
    [Event.createShadow, Event.copy, Event.dropOld],
    finalCheck t.rows.length nrs.length, ?_, ?_⟩
  · rw [heq]
    simp [okTxTrace, List.append_assoc]
  · simp [preTrace]

/-- C8 witness: the successful run on the empty expected table exhibits the
split. -/
theorem c8_indexes_before_commit_witness :
    Event.commit ∈ (main goodDB "" none).trace ∧
    (∃ l1 l2, (main goodDB "" none).trace =
      l1 ++ [Event.rename] ++ indexNames.map Event.createIndex ++
        [Event.commit] ++ l2 ∧ Event.begin ∈ l1) :=
  ⟨by decide, c8_indexes_before_commit goodDB "" none (by decide)⟩

/-- C9 counterexample: the claim as stated fails.  After a successful run
four named secondary indexes exist, not two. -/
theorem c9_counterexample :
    (main goodDB "" none).exitCode = 0 ∧
    List.map Prod.fst (main goodDB "" none).db.indexes = indexNames ∧
    (main goodDB "" none).db.indexes.length = 4 ∧
    ¬(main goodDB "" none).db.indexes.length = 2 := by
  decide

/-- C9 as amended (post-migration indexes): after every committed run each
of the four named secondary indexes exists, and the index-creation
operation is conditional — creating an index whose name is already present
changes nothing, so it is safe to invoke repeatedly. -/
theorem c9_four_indexes (db : DB) (resp : String) (failAt : Option InjectStep)
    (hcommit : Event.commit ∈ (main db resp failAt).trace) :
    (∀ n ∈ indexNames, ∃ tn, (n, tn) ∈ (main db resp failAt).db.indexes) ∧
    (∀ (d : DB) (n : String), d.indexes.any (fun p => p.1 == n) = true →
      createIndexIfAbsent d n = d) := by
  obtain ⟨t, nrs, ht, hc, hfail, hsh, hcopy, heq⟩ :=
    main_commit db resp failAt hcommit
  constructor
  · intro n hn
    rw [heq]
    exact createAllIndexes_mem _ n hn
  · exact fun d n h => createIndexIfAbsent_idem d n h

/-- C9 witness: the successful run on the empty expected table. -/
theorem c9_four_indexes_witness :
    Event.commit ∈ (main goodDB "" none).trace ∧
    ((∀ n ∈ indexNames, ∃ tn, (n, tn) ∈ (main goodDB "" none).db.indexes) ∧
     (∀ (d : DB) (n : String), d.indexes.any (fun p => p.1 == n) = true →
       createIndexIfAbsent d n = d)) :=
  ⟨by decide, c9_four_indexes goodDB "" none (by decide)⟩

/-- C10 (post-commit mismatch is a warning only): every committed run exits
with code 0 and never rolls back; its trace ends with the post-commit
verification report, and that report, on any mismatching pair of counts,
consists of the comparison followed by the textual warning only — a
mismatch cannot change the result or trigger a rollback. -/
theorem c10_mismatch_warns_only (db : DB) (resp : String)
    (failAt : Option InjectStep) (expCnt actCnt : Nat)
    (hcommit : Event.commit ∈ (main db resp failAt).trace)
    (hne : actCnt ≠ expCnt) :
    (main db resp failAt).exitCode = 0 ∧
    Event.rollback ∉ (main db resp failAt).trace ∧
    (∃ l a b, (main db resp failAt).trace = l ++ finalCheck a b) ∧
    finalCheck expCnt actCnt =
      [Event.verifyCount expCnt actCnt, Event.warnMismatch] := by
  obtain ⟨t, nrs, ht, hc, hfail, hsh, hcopy, heq⟩ :=
    main_commit db resp failAt hcommit
  refine ⟨by rw [heq], ?_,
    ⟨preTrace t.rows.length ++ okTxTrace ++ [Event.commit],
      t.rows.length, nrs.length, by rw [heq]⟩, ?_⟩
  · intro hmem
    rw [heq] at hmem
    simp only [List.mem_append, List.mem_singleton] at hmem
    rcases hmem with ((h | h) | h) | h
    · rcases preTrace_mem _ _ h with h | h | h | h | h <;> cases h
    · rcases okTxTrace_mem _ h with h | h | h | h | ⟨s, h⟩ <;> cases h
    · cases h
    · rcases finalCheck_mem _ _ _ h with h | h <;> cases h
  · unfold finalCheck
    rw [if_neg hne]

/-- C10 witness: the committed run on the empty expected table, with the
mismatching pair 0 and 1 for the report. -/
theorem c10_mismatch_warns_only_witness :
    Event.commit ∈ (main goodDB "" none).trace ∧
    ¬(0 = 1) ∧
    ((main goodDB "" none).exitCode = 0 ∧
     Event.rollback ∉ (main goodDB "" none).trace ∧
     (∃ l a b, (main goodDB "" none).trace = l ++ finalCheck a b) ∧
     finalCheck 1 0 = [Event.verifyCount 1 0, Event.warnMismatch]) :=
  ⟨by decide, by decide,
    c10_mismatch_warns_only goodDB "" none 1 0 (by decide) (by decide)⟩

end MigrateDB
